import Mathlib

/-!
Verification development for the KarmaBot command dispatch and moderation
pipeline.  The handlers in `app/handlers/change_karma.py`,
`app/handlers/moderator.py` and the log chunker in
`app/utils/send_text_file.py` are embedded shallowly: external collaborators
(the Telegram client, the persistence layer, the duration parser library and
`textwrap`) enter the model as explicit inputs, and each handler becomes a
pure function from those inputs to an effect record (reply sent, platform
calls made, audit records written, state after).
-/

namespace KarmaBot

/-- Local database user record (`app.models.user.User`): primary key `id`,
platform id `tg_id`, display name and mention text. -/
structure User where
  id : Nat
  tg_id : Nat
  fullname : String
  mention_link : String
deriving DecidableEq, Repr

/-- Local chat record (`app.models.chat.Chat`). -/
structure Chat where
  id : Nat
  chat_id : Int
deriving DecidableEq, Repr

/-- `aiogram.utils.markdown.hbold`. -/
def hbold (s : String) : String := "<b>" ++ s ++ "</b>"

/-- `app/handlers/change_karma.py` line 19: the self-karma guard
`can_change_karma(target_user, user) = (user.id != target_user.id)`. -/
def can_change_karma (target_user : User) (user : User) : Bool :=
  user.id != target_user.id

/-- `app/handlers/change_karma.py` lines 13-16: the dict mapping the delta to
the verb used in the success reply. -/
def how_change_word (d : Int) : String :=
  if d = 1 then "увеличили" else "уменьшили"

/-- Karma scores per (user id, chat id) key: the `UserKarma` table. -/
structure KarmaState where
  scores : List ((Nat × Nat) × Int)
deriving DecidableEq, Repr

def KarmaState.lookup (st : KarmaState) (k : Nat × Nat) : Option Int :=
  (st.scores.find? (fun p => p.fst == k)).map Prod.snd

def KarmaState.set (st : KarmaState) (k : Nat × Nat) (v : Int) : KarmaState :=
  ⟨(k, v) :: st.scores.filter (fun p => p.fst != k)⟩

/-- Configuration of the karma engine: the floor below which decrements are
rejected and the base value a row is created at. -/
structure KarmaCfg where
  floor : Int
  base : Int
deriving DecidableEq, Repr

/-- The `SubZeroKarma` exception of `app.utils.exceptions`. -/
inductive SubZeroKarma where
  | mk
deriving DecidableEq, Repr

/-- Modelled from the spec: `UserKarma.change_or_create` (the karma engine in
`app/models/user_karma.py` is not under `src/`).  Per spec 4.5: if no row
exists for (target, chat) one is created at a base value and the delta
applied, otherwise read-modify-write; fails with `SubZeroKarma` when a
decrement would push the target's resulting karma below the configured
floor, in which case no mutation occurs.  Returns the updated state and the
new karma value used for display. -/
def change_or_create (cfg : KarmaCfg) (st : KarmaState) (target_user : User)
    (chat : Chat) (how_change : Int) : Except SubZeroKarma (KarmaState × Int) :=
  let k : Nat × Nat := (target_user.id, chat.id)
  let cur : Int := (st.lookup k).getD cfg.base
  let newv : Int := cur + how_change
  if how_change < 0 && newv < cfg.floor then
    Except.error SubZeroKarma.mk
  else
    Except.ok (st.set k newv, newv)

/-- Results of the two external resolution calls made by `karma_change`:
`primary` is `User.get_or_create_from_tg_user(karma['user'])` (`none` means
it raised `UserWithoutUserIdError`, which per spec 4.2 happens exactly when
the raw reference carries no platform id), and `byUsername` is the fallback
`user_getter.get_user_by_username` (`none` means `UsernameNotOccupied` or
`IndexError`). -/
structure TgResolution where
  primary : Option User
  byUsername : Option User
deriving DecidableEq, Repr

/-- Observable outcome of one `karma_change` invocation. -/
inductive KarmaChangeOutcome where
  /-- the handler returned after only logging (self-karma path) -/
  | selfIgnored
  /-- `UserWithoutUserIdError` was enriched and re-raised -/
  | unresolvedRaised
  /-- a reply with this text was sent -/
  | replied (text : String)
deriving DecidableEq, Repr

structure KarmaChangeResult where
  outcome : KarmaChangeOutcome
  state : KarmaState
  /-- whether `UserKarma.change_or_create` was invoked at all -/
  engineCalled : Bool
deriving DecidableEq, Repr

/-- `app/handlers/change_karma.py` line 53. -/
def sub_zero_reply : String := "У Вас слишком мало кармы для этого"

/-- `app/handlers/change_karma.py` lines 55-64: the success reply text.  The
display "power" is rendered by the caller-supplied `power_text` (its formula
is an external, display-only policy per spec 9). -/
def success_reply (d : Int) (target_user : User) (karma_new : Int)
    (power_text : String) : String :=
  "Вы " ++ how_change_word d ++ " карму " ++ hbold target_user.fullname ++
    " до " ++ hbold (toString karma_new) ++ " (" ++ power_text ++ ")"

/-- Shared tail of `karma_change` (lines 44-70): invoke the karma engine on
the resolved target and either reply with the sub-zero rejection (state
unchanged) or with the success text (state updated). -/
def karma_change_engine_step (cfg : KarmaCfg) (st : KarmaState)
    (target_user : User) (chat : Chat) (delta : Int) (power_text : String) :
    KarmaChangeResult :=
  match change_or_create cfg st target_user chat delta with
  | Except.error _ =>
      { outcome := KarmaChangeOutcome.replied sub_zero_reply
        state := st
        engineCalled := true }
  | Except.ok (st', newv) =>
      { outcome := KarmaChangeOutcome.replied (success_reply delta target_user newv power_text)
        state := st'
        engineCalled := true }

/-- `app/handlers/change_karma.py` lines 29-70, the `karma_change` handler.
Control flow of the source: try the primary resolution; on success run the
self-karma guard and return (log only) when it fires; on
`UserWithoutUserIdError` fall back to the username lookup (no self-karma
guard on this path) and re-raise when that fails too; then invoke the karma
engine and reply. -/
def karma_change (cfg : KarmaCfg) (res : TgResolution) (delta : Int)
    (power_text : String) (user : User) (chat : Chat) (st : KarmaState) :
    KarmaChangeResult :=
  match res.primary with
  | some target_user =>
      if !(can_change_karma target_user user) then
        { outcome := KarmaChangeOutcome.selfIgnored, state := st, engineCalled := false }
      else
        karma_change_engine_step cfg st target_user chat delta power_text
  | none =>
      match res.byUsername with
      | some target_user =>
          karma_change_engine_step cfg st target_user chat delta power_text
      | none =>
          { outcome := KarmaChangeOutcome.unresolvedRaised, state := st, engineCalled := false }

/-- `app/handlers/change_karma.py` line 24: the reply of
`to_fast_change_karma`, sent when the throttle suppresses an invocation. -/
def to_fast_reply : String := "Вы слишком часто меняете карму"

/-- `app/handlers/change_karma.py` line 28: `@dp.throttled(..., rate=30)`. -/
def karma_change_rate : Nat := 30

/-- `RateLimitState`: last-invocation time (seconds) per actor id. -/
structure ThrottleState where
  entries : List (Nat × Nat)
deriving DecidableEq, Repr

def ThrottleState.last (ts : ThrottleState) (actor : Nat) : Option Nat :=
  (ts.entries.find? (fun p => p.fst == actor)).map Prod.snd

def ThrottleState.touch (ts : ThrottleState) (actor now : Nat) : ThrottleState :=
  ⟨(actor, now) :: ts.entries.filter (fun p => p.fst != actor)⟩

/-- Modelled from the spec: the rate limiter behind aiogram's
`dp.throttled(rate=...)` decorator (framework code, not under `src/`).  Per
spec 4.3, it enforces a minimum inter-invocation interval per actor: an
invocation within the cooldown window of the previous one is suppressed and
does not execute the action; invocations spaced beyond the window execute
and record the new invocation time.  Returns whether the invocation passes
and the updated state. -/
def throttle_check (rate : Nat) (ts : ThrottleState) (actor now : Nat) :
    Bool × ThrottleState :=
  match ts.last actor with
  | some lastT =>
      if now - lastT < rate then (false, ts)
      else (true, ts.touch actor now)
  | none => (true, ts.touch actor now)

structure ThrottledKarmaResult where
  /-- whether the throttle gate let the handler body run -/
  passed : Bool
  outcome : KarmaChangeOutcome
  throttle : ThrottleState
  state : KarmaState
  engineCalled : Bool
deriving DecidableEq, Repr

/-- The throttled `karma_change` entry point as registered on the dispatcher
(`app/handlers/change_karma.py` lines 27-29): the rate-30 gate runs first and
on suppression only `to_fast_change_karma` replies, with no karma mutation. -/
def karma_change_throttled (cfg : KarmaCfg) (res : TgResolution) (delta : Int)
    (power_text : String) (user : User) (chat : Chat) (ts : ThrottleState)
    (st : KarmaState) (now : Nat) : ThrottledKarmaResult :=
  let g := throttle_check karma_change_rate ts user.tg_id now
  if g.fst then
    let r := karma_change cfg res delta power_text user chat st
    { passed := true, outcome := r.outcome, throttle := g.snd
      state := r.state, engineCalled := r.engineCalled }
  else
    { passed := false, outcome := KarmaChangeOutcome.replied to_fast_reply
      throttle := g.snd, state := st, engineCalled := false }

/-! ### `app/handlers/moderator.py` -/

/-- Durations are modelled as whole seconds (`datetime.timedelta`). -/
abbrev Timedelta := Int

/-- `app/handlers/moderator.py` line 17: `timedelta(days=366)`. -/
def FOREVER_DURATION : Timedelta := 366 * 86400

/-- `app/handlers/moderator.py` line 18: `timedelta(hours=1)`. -/
def DEFAULT_DURATION : Timedelta := 3600

/-- `app.utils.exceptions.TimedeltaParseError`: carries the offending
substring in `text` for user display. -/
structure TimedeltaParseError where
  text : String
deriving DecidableEq, Repr

/-- `aiogram.utils.markdown.quote_html`: HTML-escape. -/
def quote_html (s : String) : String :=
  ((s.replace ("&") ("&amp;")).replace ("<") ("&lt;")).replace (">") ("&gt;")

def dropSpacesAux : List Char → List Char
  | [] => []
  | c :: cs => if c.isWhitespace then dropSpacesAux cs else c :: cs

def takeWordAux : List Char → List Char × List Char
  | [] => ([], [])
  | c :: cs =>
      if c.isWhitespace then ([], c :: cs)
      else
        let (w, rest) := takeWordAux cs
        (c :: w, rest)

def splitMaxsplitAux : Nat → List Char → List String
  | _, [] => []
  | 0, cs => [String.mk cs]
  | n + 1, cs =>
      let (w, rest) := takeWordAux cs
      String.mk w :: splitMaxsplitAux n (dropSpacesAux rest)

/-- Python's `str.split(maxsplit=n)` on whitespace: leading whitespace is
dropped, at most `n` splits are made, and once they are used up the
remainder (leading whitespace stripped) is returned as the final element. -/
def splitMaxsplit (n : Nat) (s : String) : List String :=
  splitMaxsplitAux n (dropSpacesAux s.data)

/-- `app/handlers/moderator.py` lines 50-57, `get_moderator_message_args`:
drop the command word from `text.split(maxsplit=2)` and return
`(duration_text, comment)`. -/
def get_moderator_message_args (text : String) : String × String :=
  match splitMaxsplit 2 text with
  | [] => ("", "")
  | [_] => ("", "")
  | [_, duration_text] => (duration_text, "")
  | _ :: duration_text :: args1 => (duration_text, String.intercalate " " args1)

/-- `app/handlers/moderator.py` lines 60-66, `get_duration`: parse the
duration token when present, otherwise default to one hour.  The duration
parser `parse_timedelta_from_text` (in `app/utils/timedelta_functions.py`,
not under `src/`) enters as the explicit input `parseTd`. -/
def get_duration (parseTd : String → Except TimedeltaParseError Timedelta)
    (text : String) : Except TimedeltaParseError (Timedelta × String) :=
  let args := get_moderator_message_args text
  if args.fst ≠ "" then
    match parseTd args.fst with
    | Except.error e => Except.error e
    | Except.ok duration => Except.ok (duration, args.snd)
  else
    Except.ok (DEFAULT_DURATION, args.snd)

/-- Platform restrict/kick primitives as invoked by the handlers. -/
inductive PlatformCall where
  | restrict (tg_id : Nat) (until_date : Timedelta)
  | kick (tg_id : Nat) (until_date : Timedelta)
deriving DecidableEq, Repr

/-- One audit record as produced by `ModeratorEvent.save_new_action`
(identified by the ids of the referenced rows). -/
structure ModeratorEvent where
  moderator : Nat
  user : Nat
  chat : Nat
  type_restriction : String
  duration : Option Timedelta
  comment : String
deriving DecidableEq, Repr

/-- Effect record of one moderator-handler invocation. -/
structure ModResult where
  reply : Option String
  platform_calls : List PlatformCall
  audit_writes : List ModeratorEvent
deriving DecidableEq, Repr

/-- `app/handlers/moderator.py` lines 80 and 124: the parse-failure reply. -/
def parse_error_reply (e : TimedeltaParseError) : String :=
  "Не могу распознать время. " ++ quote_html e.text

/-- `app/handlers/moderator.py` lines 105-110: the mute success reply.
`format_timedelta` (not under `src/`) enters as the rendered text `fmtd`. -/
def ro_reply (target_user : User) (fmtd : String) : String :=
  "Пользователь " ++ target_user.mention_link ++
    " сможет <b>только читать</b> сообщения на протяжении " ++ fmtd

/-- `app/handlers/moderator.py` lines 76-110, `cmd_ro`: parse the trailer
(abort with the parse-error reply on failure), call the platform restrict
primitive (`restrict_ok` is its outcome; on `BadRequest` the handler logs
and returns with no audit write and no reply), then write the audit record
and send the success reply. -/
def cmd_ro (parseTd : String → Except TimedeltaParseError Timedelta)
    (fmtTd : Timedelta → String) (restrict_ok : Bool) (text : String)
    (chat : Chat) (user : User) (target_user : User) : ModResult :=
  match get_duration parseTd text with
  | Except.error e =>
      { reply := some (parse_error_reply e), platform_calls := [], audit_writes := [] }
  | Except.ok (duration, comment) =>
      let call := PlatformCall.restrict target_user.tg_id duration
      if restrict_ok then
        { reply := some (ro_reply target_user (fmtTd duration))
          platform_calls := [call]
          audit_writes := [{ moderator := user.id, user := target_user.id, chat := chat.id
                             type_restriction := "ro", duration := some duration
                             comment := comment }] }
      else
        { reply := none, platform_calls := [call], audit_writes := [] }

/-- `app/handlers/moderator.py` lines 149-153: the ban success reply, with
the return clause added only below the forever sentinel. -/
def ban_reply (target_user : User) (duration : Timedelta)
    (fmtTd : Timedelta → String) : String :=
  let text := "Пользователь " ++ target_user.mention_link ++ " попал в бан этого чата."
  if duration < FOREVER_DURATION then
    text ++ " Он сможет вернуться через " ++ fmtTd duration
  else
    text

/-- `app/handlers/moderator.py` lines 120-154, `cmd_ban`: same shape as
`cmd_ro` with the platform kick primitive and the ban reply. -/
def cmd_ban (parseTd : String → Except TimedeltaParseError Timedelta)
    (fmtTd : Timedelta → String) (kick_ok : Bool) (text : String)
    (chat : Chat) (user : User) (target_user : User) : ModResult :=
  match get_duration parseTd text with
  | Except.error e =>
      { reply := some (parse_error_reply e), platform_calls := [], audit_writes := [] }
  | Except.ok (duration, comment) =>
      let call := PlatformCall.kick target_user.tg_id duration
      if kick_ok then
        { reply := some (ban_reply target_user duration fmtTd)
          platform_calls := [call]
          audit_writes := [{ moderator := user.id, user := target_user.id, chat := chat.id
                             type_restriction := "ban", duration := some duration
                             comment := comment }] }
      else
        { reply := none, platform_calls := [call], audit_writes := [] }

/-- `app/handlers/moderator.py` lines 179-181: the warn reply. -/
def warn_reply (target_user : User) : String :=
  "Пользователь " ++ target_user.mention_link ++
    " получил официальное предупреждение от модератора"

/-- `app/handlers/moderator.py` lines 163-182, `cmd_warn`: take the comment
from `message.text.split(maxsplit=1)`, write one "warn" audit record (no
duration, no platform call) and reply. -/
def warn_comment (text : String) : String :=
  match splitMaxsplit 1 text with
  | [] => ""
  | [_] => ""
  | _ :: rest => String.intercalate " " rest

def cmd_warn (text : String) (chat : Chat) (target_user : User) (user : User) :
    ModResult :=
  let comment := warn_comment text
  { reply := some (warn_reply target_user)
    platform_calls := []
    audit_writes := [{ moderator := user.id, user := target_user.id, chat := chat.id
                       type_restriction := "warn", duration := none
                       comment := comment }] }

/-- Telegram user data of a chat member as read by the report helper. -/
structure MemberUser where
  is_bot : Bool
  url : String
deriving DecidableEq, Repr

/-- `types.ChatMemberStatus`: only `CREATOR` is distinguished by the code. -/
inductive ChatMemberStatus where
  | creator
  | other
deriving DecidableEq, Repr

/-- A chat administrator entry as returned by `chat.get_administrators()`. -/
structure ChatMember where
  user : MemberUser
  can_delete_messages : Bool
  can_restrict_members : Bool
  status : ChatMemberStatus
deriving DecidableEq, Repr

/-- `aiogram.utils.markdown.hide_link`: an invisible (zero-width anchor)
mention of `url`. -/
def hide_link (url : String) : String :=
  "<a href=\x22" ++ url ++ "\x22>&#8203;</a>"

/-- `app/handlers/moderator.py` lines 46-47, `need_notify_admin`. -/
def need_notify_admin (admin : ChatMember) : Bool :=
  admin.can_delete_messages || admin.can_restrict_members ||
    admin.status == ChatMemberStatus.creator

/-- `app/handlers/moderator.py` lines 35-43, `get_mentions_admins`: fold over
the administrator list, skipping bots and appending a hidden-link mention
for each admin passing `need_notify_admin`. -/
def get_mentions_admins (admins : List ChatMember) : String :=
  admins.foldl
    (fun admins_mention admin =>
      if admin.user.is_bot then admins_mention
      else if need_notify_admin admin then admins_mention ++ hide_link admin.user.url
      else admins_mention)
    ""

/-- Concatenation of a list of strings (specification-side helper used to
state what `get_mentions_admins` computes). -/
def joinStrings : List String → String
  | [] => ""
  | s :: rest => s ++ joinStrings rest

/-- `app/handlers/moderator.py` lines 28-32, `report`: the reply text sent,
template followed by the admin mentions and a trailing space. -/
def report_reply (admins : List ChatMember) : String :=
  "Спасибо за сообщение. Мы обязательно разберёмся. " ++ get_mentions_admins admins ++ " "

/-! Throttle decorators as registered in the source: `report` carries
`@dp.throttled(rate=5)` (`moderator.py` line 27); the mute/ban/warn handlers
carry no throttle decorator at all; `karma_change` carries
`@dp.throttled(..., rate=30)`. -/

def report_throttle : Option Nat := some 5

def cmd_ro_throttle : Option Nat := none

def cmd_ban_throttle : Option Nat := none

def cmd_warn_throttle : Option Nat := none

def karma_change_throttle : Option Nat := some karma_change_rate

/-- Run a handler's throttle gate: handlers registered without a throttle
decorator always pass and keep no rate-limit state. -/
def run_throttle_gate (rate : Option Nat) (ts : ThrottleState) (actor now : Nat) :
    Bool × ThrottleState :=
  match rate with
  | none => (true, ts)
  | some r => throttle_check r ts actor now

/-! ### `app/utils/send_text_file.py` -/

/-- `app/utils/send_text_file.py` line 11. -/
def MAX_MESSAGE_SYMBOLS : Nat := 4000

/-- The log file, modelled by its content. -/
structure FileState where
  content : String
deriving DecidableEq, Repr

def linesKeepNLAux : List Char → List Char → List String
  | [], [] => []
  | [], acc => [String.mk acc.reverse]
  | c :: rest, acc =>
      if c = '\n' then String.mk (acc.reverse ++ [c]) :: linesKeepNLAux rest []
      else linesKeepNLAux rest (c :: acc)

/-- Iterating a Python text file line by line: each line keeps its trailing
newline, a final unterminated line is yielded as-is. -/
def linesKeepNL (s : String) : List String :=
  linesKeepNLAux s.data []

/-- `app/utils/send_text_file.py` lines 16-37, `split_text_file`: read the
file line by line accumulating HTML-escaped lines into chunks of at most
`MAX_MESSAGE_SYMBOLS`, then truncate the file to zero length before
returning the chunk list.  `textwrap.wrap` (Python stdlib, applied at width
`MAX_MESSAGE_SYMBOLS`) enters as the explicit input `wrap`. -/
def split_step (wrap : String → List String) (acc : String × List String)
    (rawLine : String) : String × List String :=
  let line := quote_html rawLine
  if line.length > MAX_MESSAGE_SYMBOLS then
    ("", acc.snd ++ [acc.fst] ++ wrap line)
  else if acc.fst.length + line.length > MAX_MESSAGE_SYMBOLS then
    ("", acc.snd ++ [acc.fst])
  else
    (acc.fst ++ line, acc.snd)

def split_text_file (wrap : String → List String) (file_name : String)
    (file : FileState) : List String × FileState :=
  let init : String × List String := (hbold file_name ++ ":\n", [])
  let acc := (linesKeepNL file.content).foldl (split_step wrap) init
  let rez := if acc.fst.length > 0 then acc.snd ++ [acc.fst] else acc.snd
  (rez, { content := "" })

/-! ### Helper lemmas -/

theorem ThrottleState.last_touch (ts : ThrottleState) (a t : Nat) :
    (ts.touch a t).last a = some t := by
  have h : (((a, t) : Nat × Nat).fst == a) = true := by simp
  simp [ThrottleState.touch, ThrottleState.last, List.find?_cons_of_pos _ h]

theorem throttle_check_fresh (rate : Nat) (ts : ThrottleState) (a t : Nat)
    (hfresh : ts.last a = none) :
    throttle_check rate ts a t = (true, ts.touch a t) := by
  simp [throttle_check, hfresh]

theorem throttle_check_within (rate : Nat) (ts : ThrottleState) (a lastT t : Nat)
    (hl : ts.last a = some lastT) (hw : t - lastT < rate) :
    throttle_check rate ts a t = (false, ts) := by
  simp [throttle_check, hl, hw]

theorem throttle_check_beyond (rate : Nat) (ts : ThrottleState) (a lastT t : Nat)
    (hl : ts.last a = some lastT) (hw : rate ≤ t - lastT) :
    throttle_check rate ts a t = (true, ts.touch a t) := by
  simp [throttle_check, hl, Nat.not_lt.mpr hw]

/-! ### Claim C1 -/

/-- C1 (amended): `can_change_karma(target, actor)` returns false exactly
when `target.id == actor.id`, and on the primary resolution path (target
carries a platform id) a self-targeted karma change is silently ignored:
the handler only logs, sends no reply, and performs no karma mutation.  The
username-fallback resolution path does not run this guard (see
`self_karma_fallback_counterexample`). -/
theorem self_karma_guard_primary_path
    (cfg : KarmaCfg) (res : TgResolution) (delta : Int) (power_text : String)
    (user : User) (chat : Chat) (st : KarmaState) (target_user : User)
    (hp : res.primary = some target_user)
    (hid : target_user.id = user.id) :
    (can_change_karma target_user user = false ↔ target_user.id = user.id) ∧
    karma_change cfg res delta power_text user chat st =
      { outcome := KarmaChangeOutcome.selfIgnored, state := st, engineCalled := false } := by
  constructor
  · simp only [can_change_karma, bne_eq_false_iff_eq]
    exact eq_comm
  · simp [karma_change, hp, can_change_karma, hid]

/-- Witness: a concrete self-targeted invocation on the primary path. -/
theorem self_karma_guard_primary_path_witness :
    (can_change_karma ⟨1, 100, "A", "a"⟩ ⟨1, 101, "B", "b"⟩ = false ↔
      (⟨1, 100, "A", "a"⟩ : User).id = (⟨1, 101, "B", "b"⟩ : User).id) ∧
    karma_change ⟨0, 0⟩ ⟨some ⟨1, 100, "A", "a"⟩, none⟩ 1 "+1.0"
        ⟨1, 101, "B", "b"⟩ ⟨5, 50⟩ ⟨[]⟩ =
      { outcome := KarmaChangeOutcome.selfIgnored, state := ⟨[]⟩, engineCalled := false } :=
  self_karma_guard_primary_path ⟨0, 0⟩ ⟨some ⟨1, 100, "A", "a"⟩, none⟩ 1 "+1.0"
    ⟨1, 101, "B", "b"⟩ ⟨5, 50⟩ ⟨[]⟩ ⟨1, 100, "A", "a"⟩ rfl rfl

/-- C1 counterexample: when the target is resolved through the username
fallback (primary resolution raised `UserWithoutUserIdError`), the
self-karma guard is skipped — here the resolved target has the acting
user's own id, yet the karma engine is invoked and the karma state is
mutated, contradicting "this holds for every path by which the target is
resolved". -/
theorem self_karma_fallback_counterexample :
    ((⟨1, 100, "A", "a"⟩ : User).id = (⟨1, 100, "A", "a"⟩ : User).id) ∧
    (karma_change ⟨0, 0⟩ ⟨none, some ⟨1, 100, "A", "a"⟩⟩ 1 "+1.0"
        ⟨1, 100, "A", "a"⟩ ⟨5, 50⟩ ⟨[]⟩).engineCalled = true ∧
    (karma_change ⟨0, 0⟩ ⟨none, some ⟨1, 100, "A", "a"⟩⟩ 1 "+1.0"
        ⟨1, 100, "A", "a"⟩ ⟨5, 50⟩ ⟨[]⟩).state = ⟨[((1, 5), 1)]⟩ ∧
    (⟨[((1, 5), 1)]⟩ : KarmaState) ≠ ⟨[]⟩ :=
  ⟨rfl, rfl, rfl, by decide⟩

/-! ### Claim C3 -/

/-- C3: whenever the karma engine rejects the change with `SubZeroKarma`,
the handler leaves the karma state unchanged and the acting user receives
exactly the "too little karma to do this" reply — no other outcome is
produced for that invocation. -/
theorem sub_zero_karma_reply
    (cfg : KarmaCfg) (res : TgResolution) (delta : Int) (power_text : String)
    (user : User) (chat : Chat) (st : KarmaState) (target_user : User)
    (hres : (res.primary = some target_user ∧ can_change_karma target_user user = true) ∨
            (res.primary = none ∧ res.byUsername = some target_user))
    (herr : change_or_create cfg st target_user chat delta = Except.error SubZeroKarma.mk) :
    karma_change cfg res delta power_text user chat st =
      { outcome := KarmaChangeOutcome.replied sub_zero_reply
        state := st, engineCalled := true } := by
  rcases hres with ⟨hp, hc⟩ | ⟨hp, hu⟩
  · simp [karma_change, hp, hc, karma_change_engine_step, herr]
  · simp [karma_change, hp, hu, karma_change_engine_step, herr]

/-- Witness: a concrete decrement of a fresh karma row at floor 0. -/
theorem sub_zero_karma_reply_witness :
    karma_change ⟨0, 0⟩ ⟨some ⟨2, 200, "T", "t"⟩, none⟩ (-1) "-1.0"
        ⟨1, 101, "B", "b"⟩ ⟨5, 50⟩ ⟨[]⟩ =
      { outcome := KarmaChangeOutcome.replied sub_zero_reply
        state := ⟨[]⟩, engineCalled := true } :=
  sub_zero_karma_reply ⟨0, 0⟩ ⟨some ⟨2, 200, "T", "t"⟩, none⟩ (-1) "-1.0"
    ⟨1, 101, "B", "b"⟩ ⟨5, 50⟩ ⟨[]⟩ ⟨2, 200, "T", "t"⟩ (Or.inl ⟨rfl, rfl⟩) rfl

/-! ### Claim C4 -/

/-- C4: with no prior invocation recorded for the actor, a first
karma-change invocation passes the 30-second gate; a second invocation by
the same actor within 30 seconds is suppressed — it produces exactly the
distinct throttle reply, performs no karma mutation and leaves the gate
state untouched — while an invocation 30 or more seconds after the first
passes the gate as well. -/
theorem karma_throttle_window
    (cfg : KarmaCfg) (res : TgResolution) (delta : Int) (power_text : String)
    (user : User) (chat : Chat) (ts : ThrottleState) (st : KarmaState)
    (t1 t2 t3 : Nat)
    (hfresh : ts.last user.tg_id = none)
    (hwin : t2 - t1 < 30)
    (hbeyond : 30 ≤ t3 - t1) :
    (karma_change_throttled cfg res delta power_text user chat ts st t1).passed = true ∧
    karma_change_throttled cfg res delta power_text user chat
        (karma_change_throttled cfg res delta power_text user chat ts st t1).throttle
        (karma_change_throttled cfg res delta power_text user chat ts st t1).state t2 =
      { passed := false
        outcome := KarmaChangeOutcome.replied to_fast_reply
        throttle := (karma_change_throttled cfg res delta power_text user chat ts st t1).throttle
        state := (karma_change_throttled cfg res delta power_text user chat ts st t1).state
        engineCalled := false } ∧
    (karma_change_throttled cfg res delta power_text user chat
        (karma_change_throttled cfg res delta power_text user chat ts st t1).throttle
        (karma_change_throttled cfg res delta power_text user chat ts st t1).state t3).passed = true := by
  have hg1 : throttle_check karma_change_rate ts user.tg_id t1 =
      (true, ts.touch user.tg_id t1) := throttle_check_fresh _ _ _ _ hfresh
  have hthr : (karma_change_throttled cfg res delta power_text user chat ts st t1).throttle =
      ts.touch user.tg_id t1 := by
    simp [karma_change_throttled, hg1]
  have hg2 : throttle_check karma_change_rate (ts.touch user.tg_id t1) user.tg_id t2 =
      (false, ts.touch user.tg_id t1) :=
    throttle_check_within _ _ _ _ _ (ThrottleState.last_touch ts user.tg_id t1) hwin
  have hg3 : throttle_check karma_change_rate (ts.touch user.tg_id t1) user.tg_id t3 =
      (true, (ts.touch user.tg_id t1).touch user.tg_id t3) :=
    throttle_check_beyond _ _ _ _ _ (ThrottleState.last_touch ts user.tg_id t1) hbeyond
  refine ⟨?_, ?_, ?_⟩
  · simp [karma_change_throttled, hg1]
  · rw [hthr]
    simp [karma_change_throttled, hg1, hg2]
  · rw [hthr]
    simp [karma_change_throttled, hg2, hg3]

/-- Witness: actor 101 invokes at times 0, 10 (suppressed) and 40 (passes). -/
theorem karma_throttle_window_witness :
    (karma_change_throttled ⟨0, 0⟩ ⟨some ⟨2, 200, "T", "t"⟩, none⟩ 1 "+1.0"
        ⟨1, 101, "B", "b"⟩ ⟨5, 50⟩ ⟨[]⟩ ⟨[]⟩ 0).passed = true ∧
    karma_change_throttled ⟨0, 0⟩ ⟨some ⟨2, 200, "T", "t"⟩, none⟩ 1 "+1.0"
        ⟨1, 101, "B", "b"⟩ ⟨5, 50⟩
        (karma_change_throttled ⟨0, 0⟩ ⟨some ⟨2, 200, "T", "t"⟩, none⟩ 1 "+1.0"
          ⟨1, 101, "B", "b"⟩ ⟨5, 50⟩ ⟨[]⟩ ⟨[]⟩ 0).throttle
        (karma_change_throttled ⟨0, 0⟩ ⟨some ⟨2, 200, "T", "t"⟩, none⟩ 1 "+1.0"
          ⟨1, 101, "B", "b"⟩ ⟨5, 50⟩ ⟨[]⟩ ⟨[]⟩ 0).state 10 =
      { passed := false
        outcome := KarmaChangeOutcome.replied to_fast_reply
        throttle := (karma_change_throttled ⟨0, 0⟩ ⟨some ⟨2, 200, "T", "t"⟩, none⟩ 1 "+1.0"
          ⟨1, 101, "B", "b"⟩ ⟨5, 50⟩ ⟨[]⟩ ⟨[]⟩ 0).throttle
        state := (karma_change_throttled ⟨0, 0⟩ ⟨some ⟨2, 200, "T", "t"⟩, none⟩ 1 "+1.0"
          ⟨1, 101, "B", "b"⟩ ⟨5, 50⟩ ⟨[]⟩ ⟨[]⟩ 0).state
        engineCalled := false } ∧
    (karma_change_throttled ⟨0, 0⟩ ⟨some ⟨2, 200, "T", "t"⟩, none⟩ 1 "+1.0"
        ⟨1, 101, "B", "b"⟩ ⟨5, 50⟩
        (karma_change_throttled ⟨0, 0⟩ ⟨some ⟨2, 200, "T", "t"⟩, none⟩ 1 "+1.0"
          ⟨1, 101, "B", "b"⟩ ⟨5, 50⟩ ⟨[]⟩ ⟨[]⟩ 0).throttle
        (karma_change_throttled ⟨0, 0⟩ ⟨some ⟨2, 200, "T", "t"⟩, none⟩ 1 "+1.0"
          ⟨1, 101, "B", "b"⟩ ⟨5, 50⟩ ⟨[]⟩ ⟨[]⟩ 0).state 40).passed = true :=
  karma_throttle_window ⟨0, 0⟩ ⟨some ⟨2, 200, "T", "t"⟩, none⟩ 1 "+1.0"
    ⟨1, 101, "B", "b"⟩ ⟨5, 50⟩ ⟨[]⟩ ⟨[]⟩ 0 10 40 rfl (by decide) (by decide)

/-! ### Claim C2 -/

/-- C2: for mute and ban, when the platform restrict/kick call is reached
and fails, the handler aborts: the call was made but no audit record is
written and no reply is sent.  Since the audit write sits in the success
branch of that same call, an audit record is written only after the
platform call succeeds. -/
theorem moderation_atomicity
    (parseTd : String → Except TimedeltaParseError Timedelta)
    (fmtTd : Timedelta → String) (text : String) (chat : Chat) (user : User)
    (target_user : User) (duration : Timedelta) (comment : String)
    (hok : get_duration parseTd text = Except.ok (duration, comment)) :
    ((cmd_ro parseTd fmtTd false text chat user target_user).platform_calls =
        [PlatformCall.restrict target_user.tg_id duration] ∧
      (cmd_ro parseTd fmtTd false text chat user target_user).audit_writes = [] ∧
      (cmd_ro parseTd fmtTd false text chat user target_user).reply = none) ∧
    ((cmd_ban parseTd fmtTd false text chat user target_user).platform_calls =
        [PlatformCall.kick target_user.tg_id duration] ∧
      (cmd_ban parseTd fmtTd false text chat user target_user).audit_writes = [] ∧
      (cmd_ban parseTd fmtTd false text chat user target_user).reply = none) := by
  refine ⟨⟨?_, ?_, ?_⟩, ⟨?_, ?_, ?_⟩⟩ <;> simp [cmd_ro, cmd_ban, hok]

/-- Witness: a concrete failing restrict/kick call with the default
one-hour duration. -/
theorem moderation_atomicity_witness :
    ((cmd_ro (fun s => Except.error ⟨s⟩) (fun _ => "1 час") false ("!ro")
        ⟨5, 50⟩ ⟨1, 101, "B", "b"⟩ ⟨2, 200, "T", "t"⟩).platform_calls =
        [PlatformCall.restrict 200 3600] ∧
      (cmd_ro (fun s => Except.error ⟨s⟩) (fun _ => "1 час") false ("!ro")
        ⟨5, 50⟩ ⟨1, 101, "B", "b"⟩ ⟨2, 200, "T", "t"⟩).audit_writes = [] ∧
      (cmd_ro (fun s => Except.error ⟨s⟩) (fun _ => "1 час") false ("!ro")
        ⟨5, 50⟩ ⟨1, 101, "B", "b"⟩ ⟨2, 200, "T", "t"⟩).reply = none) ∧
    ((cmd_ban (fun s => Except.error ⟨s⟩) (fun _ => "1 час") false ("!ro")
        ⟨5, 50⟩ ⟨1, 101, "B", "b"⟩ ⟨2, 200, "T", "t"⟩).platform_calls =
        [PlatformCall.kick 200 3600] ∧
      (cmd_ban (fun s => Except.error ⟨s⟩) (fun _ => "1 час") false ("!ro")
        ⟨5, 50⟩ ⟨1, 101, "B", "b"⟩ ⟨2, 200, "T", "t"⟩).audit_writes = [] ∧
      (cmd_ban (fun s => Except.error ⟨s⟩) (fun _ => "1 час") false ("!ro")
        ⟨5, 50⟩ ⟨1, 101, "B", "b"⟩ ⟨2, 200, "T", "t"⟩).reply = none) :=
  moderation_atomicity (fun s => Except.error ⟨s⟩) (fun _ => "1 час") ("!ro")
    ⟨5, 50⟩ ⟨1, 101, "B", "b"⟩ ⟨2, 200, "T", "t"⟩ 3600 "" rfl

/-! ### Claim C5 -/

/-- C5: when the command trailer carries a duration token the parser
rejects, both mute and ban reply with the parse-error text carrying the
offending substring and abort with no platform call and no audit write —
whatever the platform call would have returned. -/
theorem duration_parse_failure_aborts
    (parseTd : String → Except TimedeltaParseError Timedelta)
    (fmtTd : Timedelta → String) (ok : Bool) (text : String) (chat : Chat)
    (user : User) (target_user : User) (d c : String) (e : TimedeltaParseError)
    (hargs : get_moderator_message_args text = (d, c))
    (hd : d ≠ "")
    (herr : parseTd d = Except.error e) :
    cmd_ro parseTd fmtTd ok text chat user target_user =
      { reply := some (parse_error_reply e), platform_calls := [], audit_writes := [] } ∧
    cmd_ban parseTd fmtTd ok text chat user target_user =
      { reply := some (parse_error_reply e), platform_calls := [], audit_writes := [] } := by
  have hdur : get_duration parseTd text = Except.error e := by
    simp [get_duration, hargs, hd, herr]
  constructor <;> simp [cmd_ro, cmd_ban, hdur]

/-- Witness: the trailer token "zzz" fails to parse. -/
theorem duration_parse_failure_aborts_witness :
    cmd_ro (fun s => Except.error ⟨s⟩) (fun _ => "1 час") true ("!ro zzz")
        ⟨5, 50⟩ ⟨1, 101, "B", "b"⟩ ⟨2, 200, "T", "t"⟩ =
      { reply := some (parse_error_reply ⟨"zzz"⟩), platform_calls := [], audit_writes := [] } ∧
    cmd_ban (fun s => Except.error ⟨s⟩) (fun _ => "1 час") true ("!ro zzz")
        ⟨5, 50⟩ ⟨1, 101, "B", "b"⟩ ⟨2, 200, "T", "t"⟩ =
      { reply := some (parse_error_reply ⟨"zzz"⟩), platform_calls := [], audit_writes := [] } :=
  duration_parse_failure_aborts (fun s => Except.error ⟨s⟩) (fun _ => "1 час") true
    ("!ro zzz") ⟨5, 50⟩ ⟨1, 101, "B", "b"⟩ ⟨2, 200, "T", "t"⟩ "zzz" "" ⟨"zzz"⟩
    rfl (by decide) rfl

/-! ### Claim C6 -/

/-- C6: a successfully executed ban replies with the text naming the target
and stating the ban, and that text carries the "can return after
<duration>" clause exactly when the parsed duration is strictly below the
366-day forever sentinel: below the sentinel the reply is the base text
extended by the clause, at or above it the reply is the base text alone,
and the two texts always differ. -/
theorem ban_reply_forever_clause
    (parseTd : String → Except TimedeltaParseError Timedelta)
    (fmtTd : Timedelta → String) (text : String) (chat : Chat) (user : User)
    (target_user : User) (duration : Timedelta) (comment : String)
    (hok : get_duration parseTd text = Except.ok (duration, comment)) :
    (cmd_ban parseTd fmtTd true text chat user target_user).reply =
        some (ban_reply target_user duration fmtTd) ∧
    (duration < FOREVER_DURATION →
      ban_reply target_user duration fmtTd =
        "Пользователь " ++ target_user.mention_link ++ " попал в бан этого чата." ++
          " Он сможет вернуться через " ++ fmtTd duration) ∧
    (FOREVER_DURATION ≤ duration →
      ban_reply target_user duration fmtTd =
        "Пользователь " ++ target_user.mention_link ++ " попал в бан этого чата.") ∧
    "Пользователь " ++ target_user.mention_link ++ " попал в бан этого чата." ++
        " Он сможет вернуться через " ++ fmtTd duration ≠
      "Пользователь " ++ target_user.mention_link ++ " попал в бан этого чата." := by
  refine ⟨by simp [cmd_ban, hok], ?_, ?_, ?_⟩
  · intro h
    simp [ban_reply, h]
  · intro h
    simp [ban_reply, Int.not_lt.mpr h]
  · intro h
    have hlen := congrArg String.length h
    simp only [String.length_append] at hlen
    have hclause : (" Он сможет вернуться через ").length = 27 := by decide
    omega

/-- Witness: a 60-second ban carries the return clause, a 366-day ban does
not. -/
theorem ban_reply_forever_clause_witness :
    (cmd_ban (fun _ => Except.ok 60) (fun _ => "минуту") true ("!ban 1m")
        ⟨5, 50⟩ ⟨1, 101, "B", "b"⟩ ⟨2, 200, "T", "t"⟩).reply =
      some (ban_reply ⟨2, 200, "T", "t"⟩ 60 (fun _ => "минуту")) ∧
    ban_reply ⟨2, 200, "T", "t"⟩ 60 (fun _ => "минуту") =
      "Пользователь " ++ (⟨2, 200, "T", "t"⟩ : User).mention_link ++
        " попал в бан этого чата." ++ " Он сможет вернуться через " ++
        (fun (_ : Timedelta) => "минуту") 60 ∧
    ban_reply ⟨2, 200, "T", "t"⟩ (366 * 86400) (fun _ => "минуту") =
      "Пользователь " ++ (⟨2, 200, "T", "t"⟩ : User).mention_link ++
        " попал в бан этого чата." :=
  ⟨(ban_reply_forever_clause (fun _ => Except.ok 60) (fun _ => "минуту") ("!ban 1m")
      ⟨5, 50⟩ ⟨1, 101, "B", "b"⟩ ⟨2, 200, "T", "t"⟩ 60 "" rfl).1,
    (ban_reply_forever_clause (fun _ => Except.ok 60) (fun _ => "минуту") ("!ban 1m")
      ⟨5, 50⟩ ⟨1, 101, "B", "b"⟩ ⟨2, 200, "T", "t"⟩ 60 "" rfl).2.1 (by decide),
    (ban_reply_forever_clause (fun _ => Except.ok (366 * 86400)) (fun _ => "минуту")
      ("!ban 1m") ⟨5, 50⟩ ⟨1, 101, "B", "b"⟩ ⟨2, 200, "T", "t"⟩ (366 * 86400) "" rfl).2.2.1
      (by decide)⟩

/-! ### Claim C7 -/

/-- C7: the warn handler never reaches a platform restrict/kick primitive:
its only effects are one "warn" audit record (moderator, target, chat,
comment, no duration) and the acknowledgement reply. -/
theorem warn_no_platform_call
    (text : String) (chat : Chat) (target_user : User) (user : User) :
    (cmd_warn text chat target_user user).platform_calls = [] ∧
    (cmd_warn text chat target_user user).audit_writes =
      [{ moderator := user.id, user := target_user.id, chat := chat.id
         type_restriction := "warn", duration := none
         comment := warn_comment text }] ∧
    (cmd_warn text chat target_user user).reply = some (warn_reply target_user) :=
  ⟨rfl, rfl, rfl⟩

/-! ### Claim C8 -/

/-- C8 counterexample: two report invocations 1 second apart — the second
is suppressed by the 5-second gate; but two mute (or ban, or warn)
invocations 1 second apart by the same actor both execute, because those
handlers are registered with no throttle at all, contradicting "mute/ban/
warn invocations are governed by this separate window". -/
theorem moderation_throttle_counterexample :
    (run_throttle_gate report_throttle (run_throttle_gate report_throttle ⟨[]⟩ 7 0).snd 7 1).fst = false ∧
    (run_throttle_gate cmd_ro_throttle ⟨[]⟩ 7 0).fst = true ∧
    (run_throttle_gate cmd_ro_throttle (run_throttle_gate cmd_ro_throttle ⟨[]⟩ 7 0).snd 7 1).fst = true ∧
    (run_throttle_gate cmd_ban_throttle (run_throttle_gate cmd_ban_throttle ⟨[]⟩ 7 0).snd 7 1).fst = true ∧
    (run_throttle_gate cmd_warn_throttle (run_throttle_gate cmd_warn_throttle ⟨[]⟩ 7 0).snd 7 1).fst = true := by
  decide

/-- C8 (amended): the 5-second throttle window applies only to the report
action and is independent of the 30-second karma throttle: a second report
by the same actor within 5 seconds is suppressed, while the mute/ban/warn
handlers carry no throttle gate at all — every invocation passes whatever
the actor's invocation history. -/
theorem report_throttle_only
    (ts : ThrottleState) (actor t1 t2 : Nat) (ts2 : ThrottleState) (a2 t : Nat)
    (hfresh : ts.last actor = none) (hwin : t2 - t1 < 5) :
    (run_throttle_gate report_throttle ts actor t1).fst = true ∧
    (run_throttle_gate report_throttle
        (run_throttle_gate report_throttle ts actor t1).snd actor t2).fst = false ∧
    run_throttle_gate cmd_ro_throttle ts2 a2 t = (true, ts2) ∧
    run_throttle_gate cmd_ban_throttle ts2 a2 t = (true, ts2) ∧
    run_throttle_gate cmd_warn_throttle ts2 a2 t = (true, ts2) ∧
    report_throttle = some 5 ∧
    karma_change_throttle = some 30 := by
  have h1 : run_throttle_gate report_throttle ts actor t1 = (true, ts.touch actor t1) := by
    simp [run_throttle_gate, report_throttle, throttle_check_fresh _ _ _ _ hfresh]
  refine ⟨by simp [h1], ?_, rfl, rfl, rfl, rfl, rfl⟩
  rw [h1]
  simp [run_throttle_gate, report_throttle,
    throttle_check_within 5 _ actor t1 t2 (ThrottleState.last_touch ts actor t1) hwin]

/-- Witness: report at times 0 and 3 (second suppressed); a mute/ban/warn
gate passes even for an actor with a 1-second-old entry. -/
theorem report_throttle_only_witness :
    (run_throttle_gate report_throttle ⟨[]⟩ 7 0).fst = true ∧
    (run_throttle_gate report_throttle
        (run_throttle_gate report_throttle ⟨[]⟩ 7 0).snd 7 3).fst = false ∧
    run_throttle_gate cmd_ro_throttle ⟨[(9, 1)]⟩ 9 2 = (true, ⟨[(9, 1)]⟩) ∧
    run_throttle_gate cmd_ban_throttle ⟨[(9, 1)]⟩ 9 2 = (true, ⟨[(9, 1)]⟩) ∧
    run_throttle_gate cmd_warn_throttle ⟨[(9, 1)]⟩ 9 2 = (true, ⟨[(9, 1)]⟩) ∧
    report_throttle = some 5 ∧
    karma_change_throttle = some 30 :=
  report_throttle_only ⟨[]⟩ 7 0 3 ⟨[(9, 1)]⟩ 9 2 rfl (by decide)

/-! ### Claim C9 -/

theorem mentions_foldl_append (admins : List ChatMember) (acc : String) :
    admins.foldl
      (fun admins_mention admin =>
        if admin.user.is_bot then admins_mention
        else if need_notify_admin admin then admins_mention ++ hide_link admin.user.url
        else admins_mention) acc =
    acc ++ joinStrings ((admins.filter
        (fun a => !a.user.is_bot && need_notify_admin a)).map
      (fun a => hide_link a.user.url)) := by
  induction admins generalizing acc with
  | nil => simp [joinStrings]
  | cons a as ih =>
      by_cases hb : a.user.is_bot
      · simp [hb, ih]
      · by_cases hn : need_notify_admin a
        · simp [hb, hn, ih, joinStrings, String.append_assoc]
        · simp [hb, hn, ih]

/-- C9: the mention string composed for a report consists of exactly the
hidden-link mentions of those administrators that are not bot accounts and
hold can-delete-messages, can-restrict-members or creator status — in
list order — and it is appended (with a trailing space) to the report
reply. -/
theorem report_mentions_admins (admins : List ChatMember) :
    get_mentions_admins admins =
      joinStrings ((admins.filter
          (fun a => !a.user.is_bot && need_notify_admin a)).map
        (fun a => hide_link a.user.url)) ∧
    report_reply admins =
      "Спасибо за сообщение. Мы обязательно разберёмся. " ++
        get_mentions_admins admins ++ " " := by
  refine ⟨?_, rfl⟩
  have h := mentions_foldl_append admins ""
  simpa [get_mentions_admins] using h

/-! ### Claim C10 -/

/-- C10: every `split_text_file` call leaves the log file truncated to zero
length, whatever its content was; reading the file again therefore yields
nothing — a second call returns only the file-name header chunk. -/
theorem split_text_file_truncates (wrap : String → List String)
    (file_name : String) (file : FileState) :
    (split_text_file wrap file_name file).snd = { content := "" } ∧
    (split_text_file wrap file_name (split_text_file wrap file_name file).snd).fst =
      [hbold file_name ++ ":\n"] := by
  constructor
  · rfl
  · have hempty : linesKeepNL "" = [] := rfl
    have h2 : (":\n").length = 2 := rfl
    have hlen := String.length_append (hbold file_name) ":\n"
    have hpos : 0 < (hbold file_name ++ ":\n").length := by omega
    simp [split_text_file, hempty, hpos]
    intro h
    omega

end KarmaBot
